import Mathlib

/-!
Verification of the rebuild-user-service operator script.

The script is embedded shallowly.  An `Env` describes the world the script
runs against: whether the hard-coded working directory exists, and, for each
shell command string, the result of the child process spawned for it
(exit status, captured stdout, captured stderr).  Every observable action of
the script is recorded in an event trace: console prints, the process-wide
directory change, each child-process spawn together with the working
directory it was given, and the fixed sleep.  Python exceptions are modelled
explicitly: a non-zero exit status surfaces as a CalledProcessError value
(raised by the checked subprocess call and caught inside run_command), while
an OS-level spawn failure such as a missing working directory surfaces as an
osError value that no handler in the script catches.
-/

namespace RebuildScript

/-- Result of a completed child process: exit status and the two captured
text streams.  Signal termination is a negative exit status and a missing
binary under a shell is status 127, exactly as in the source platform. -/
structure ProcResult where
  returncode : Int
  stdout : String
  stderr : String
  deriving DecidableEq

/-- The exceptions that can arise in the script.  calledProcessError carries
the exit status and captured streams of a checked subprocess call that
exited non-zero; osError models an OS-level failure (missing directory). -/
inductive PyExn where
  | calledProcessError (returncode : Int) (stdout stderr : String) : PyExn
  | osError (msg : String) : PyExn
  deriving DecidableEq

/-- One observable action of the script. -/
inductive Event where
  | print (line : String) : Event
  | chdir (path : String) : Event
  | spawn (cmd : String) (cwd : String) : Event
  | sleep (secs : Nat) : Event
  deriving DecidableEq

/-- The world the script runs against: whether the hard-coded directory
exists, and the outcome of the child process for each command string. -/
structure Env where
  dirExists : Bool
  run : String → ProcResult

/-- The hard-coded working directory of the script. -/
def loyaltyDir : String := "/home/nut/loyalty-app"

/-- The message of the Python exception raised by a checked subprocess call
for a non-zero exit status (quotes around the command text elided). -/
def pyErrStr (cmd : String) (rc : Int) : String :=
  if rc < 0 then
    "Command " ++ cmd ++ " died with signal " ++ toString (-rc) ++ "."
  else
    "Command " ++ cmd ++ " returned non-zero exit status " ++ toString rc ++ "."

/-- subprocess.run with shell=True, check=True, capture_output=True,
text=True and an explicit cwd.  If the working directory is missing the
call raises an OS error and no child command runs; otherwise the child
completes and a non-zero exit status raises CalledProcessError. -/
def subprocess_run (env : Env) (cmd : String) (cwd : String) :
    Except PyExn ProcResult × List Event :=
  if env.dirExists then
    let r := env.run cmd
    if r.returncode = 0 then
      (Except.ok r, [Event.spawn cmd cwd])
    else
      (Except.error (PyExn.calledProcessError r.returncode r.stdout r.stderr),
        [Event.spawn cmd cwd])
  else
    (Except.error (PyExn.osError ("No such file or directory: " ++ cwd)), [])

/-- run_command from the script: print the description and the command,
run it via the shell in the fixed directory, echo non-empty stdout on
success, and on a non-zero exit status print the error detail plus any
non-empty captured streams and return false.  Only CalledProcessError is
caught; any other exception propagates. -/
def run_command (env : Env) (cmd description : String) :
    Except PyExn Bool × List Event :=
  let pre : List Event :=
    [Event.print ("\n🔄 " ++ description), Event.print ("Command: " ++ cmd)]
  let sub := subprocess_run env cmd loyaltyDir
  match sub.1 with
  | Except.ok result =>
      (Except.ok true,
        pre ++ sub.2 ++
          (if result.stdout ≠ "" then [Event.print ("Output: " ++ result.stdout)] else []))
  | Except.error (PyExn.calledProcessError rc so se) =>
      (Except.ok false,
        pre ++ sub.2 ++ [Event.print ("❌ Error: " ++ pyErrStr cmd rc)] ++
          (if so ≠ "" then [Event.print ("Stdout: " ++ so)] else []) ++
          (if se ≠ "" then [Event.print ("Stderr: " ++ se)] else []))
  | Except.error e => (Except.error e, pre ++ sub.2)

/-- os.chdir on the fixed path: succeeds silently or raises an OS error. -/
def os_chdir (env : Env) (path : String) : Except PyExn Unit × List Event :=
  if env.dirExists then
    (Except.ok (), [Event.chdir path])
  else
    (Except.error (PyExn.osError ("No such file or directory: " ++ path)), [])

/-- Command text of the mandatory stop step. -/
def cmdStop : String := "docker-compose stop user-service"

/-- Description of the mandatory stop step. -/
def descStop : String := "Stopping user service"

/-- Command text of the mandatory remove step. -/
def cmdRm : String := "docker-compose rm -f user-service"

/-- Description of the mandatory remove step. -/
def descRm : String := "Removing existing container"

/-- Command text of the mandatory build step. -/
def cmdBuild : String := "docker-compose build user-service"

/-- Description of the mandatory build step. -/
def descBuild : String := "Building new user service image"

/-- Command text of the mandatory start step. -/
def cmdUp : String := "docker-compose up -d user-service"

/-- Description of the mandatory start step. -/
def descUp : String := "Starting user service"

/-- The four mandatory (command, description) steps, in source order. -/
def commands : List (String × String) :=
  [(cmdStop, descStop), (cmdRm, descRm), (cmdBuild, descBuild), (cmdUp, descUp)]

/-- The best-effort status command. -/
def psCmd : String := "docker-compose ps user-service"

/-- Description of the best-effort status step. -/
def psDesc : String := "Checking service status"

/-- The best-effort logs command. -/
def logsCmd : String := "docker-compose logs --tail=10 user-service"

/-- Description of the best-effort logs step. -/
def logsDesc : String := "Showing recent logs"

/-- The mandatory loop of main: run each step; on a false result print the
failure message with the lower-cased description and exit(1) (signalled as
ok false); a raised exception propagates (signalled as error). -/
def runSteps (env : Env) : List (String × String) → Except PyExn Bool × List Event
  | [] => (Except.ok true, [])
  | (c, d) :: rest =>
      let r := run_command env c d
      match r.1 with
      | Except.ok true =>
          let s := runSteps env rest
          (s.1, r.2 ++ s.2)
      | Except.ok false =>
          (Except.ok false, r.2 ++ [Event.print ("❌ Failed to " ++ d.toLower)])
      | Except.error e => (Except.error e, r.2)

/-- How an execution of the whole program terminates: a process exit with
the given status, or an uncaught exception (abnormal termination). -/
inductive MainResult where
  | exited (code : Nat) : MainResult
  | raised (e : PyExn) : MainResult
  deriving DecidableEq

/-- The two opening banner prints of main. -/
def bannerEvents : List Event :=
  [Event.print "🔄 Rebuilding and restarting user service...",
   Event.print "============================================"]

/-- The waiting announcement and the fixed sleep of 3 seconds. -/
def waitEvents : List Event :=
  [Event.print "\n⏳ Waiting for service to start...", Event.sleep 3]

/-- The header printed before the best-effort status step. -/
def statusHdr : List Event := [Event.print "\n📊 Service status:"]

/-- The header printed before the best-effort logs step. -/
def logsHdr : List Event := [Event.print "\n📋 Recent logs:"]

/-- The completion banner of main. -/
def doneEvents : List Event := [Event.print "\n✅ User service rebuild complete!"]

/-- main from the script: banner, chdir, the four mandatory steps (exit 1 on
the first failure), fixed sleep of 3, then the two best-effort steps whose
results are ignored, and normal termination with exit status 0. -/
def main (env : Env) : MainResult × List Event :=
  let cd := os_chdir env loyaltyDir
  match cd.1 with
  | Except.error e => (MainResult.raised e, bannerEvents ++ cd.2)
  | Except.ok () =>
      let s := runSteps env commands
      match s.1 with
      | Except.error e => (MainResult.raised e, bannerEvents ++ cd.2 ++ s.2)
      | Except.ok false => (MainResult.exited 1, bannerEvents ++ cd.2 ++ s.2)
      | Except.ok true =>
          let r5 := run_command env psCmd psDesc
          match r5.1 with
          | Except.error e =>
              (MainResult.raised e,
                bannerEvents ++ cd.2 ++ s.2 ++ waitEvents ++ statusHdr ++ r5.2)
          | Except.ok _ =>
              let r6 := run_command env logsCmd logsDesc
              match r6.1 with
              | Except.error e =>
                  (MainResult.raised e,
                    bannerEvents ++ cd.2 ++ s.2 ++ waitEvents ++ statusHdr ++ r5.2 ++
                      logsHdr ++ r6.2)
              | Except.ok _ =>
                  (MainResult.exited 0,
                    bannerEvents ++ cd.2 ++ s.2 ++ waitEvents ++ statusHdr ++ r5.2 ++
                      logsHdr ++ r6.2 ++ doneEvents)

/-- An abstract orchestration action: a spawned command or a sleep. -/
inductive Action where
  | cmd (c : String) : Action
  | wait (n : Nat) : Action
  deriving DecidableEq

/-- The commands spawned in a trace, in order. -/
def spawnedCmds (tr : List Event) : List String :=
  tr.filterMap fun e =>
    match e with
    | Event.spawn c _ => some c
    | _ => none

/-- The working directories passed to spawned commands, in order. -/
def spawnedCwds (tr : List Event) : List String :=
  tr.filterMap fun e =>
    match e with
    | Event.spawn _ w => some w
    | _ => none

/-- The sleep durations in a trace, in order. -/
def sleepCalls (tr : List Event) : List Nat :=
  tr.filterMap fun e =>
    match e with
    | Event.sleep n => some n
    | _ => none

/-- The lines printed in a trace, in order. -/
def printedLines (tr : List Event) : List String :=
  tr.filterMap fun e =>
    match e with
    | Event.print s => some s
    | _ => none

/-- Spawns and sleeps of a trace, interleaved in order. -/
def actionsOf (tr : List Event) : List Action :=
  tr.filterMap fun e =>
    match e with
    | Event.spawn c _ => some (Action.cmd c)
    | Event.sleep n => some (Action.wait n)
    | _ => none

/-- The k-th mandatory step. -/
def stepOf (k : Fin 4) : String × String :=
  commands.get (Fin.cast (by rfl) k)

/-- An environment in which the directory exists and every command succeeds
with empty output. -/
def allOkEnv : Env :=
  { dirExists := true, run := fun _ => { returncode := 0, stdout := "", stderr := "" } }

/-- An environment in which the hard-coded directory is missing. -/
def noDirEnv : Env :=
  { dirExists := false, run := fun _ => { returncode := 0, stdout := "", stderr := "" } }

/-! ## Helper lemmas -/

theorem filterMap_ite {α β : Type} (f : α → Option β) (c : Prop) [Decidable c]
    (l₁ l₂ : List α) :
    List.filterMap f (if c then l₁ else l₂) =
      if c then List.filterMap f l₁ else List.filterMap f l₂ := by
  split <;> rfl

theorem run_command_fst (env : Env) (c d : String) (hd : env.dirExists = true) :
    (run_command env c d).1 = Except.ok (decide ((env.run c).returncode = 0)) := by
  by_cases h : (env.run c).returncode = 0 <;>
    simp [run_command, subprocess_run, hd, h]

theorem printedLines_run_command_succ (env : Env) (c d : String)
    (hd : env.dirExists = true) (h : (env.run c).returncode = 0) :
    printedLines (run_command env c d).2 =
      ["\n🔄 " ++ d, "Command: " ++ c] ++
        (if (env.run c).stdout ≠ "" then ["Output: " ++ (env.run c).stdout] else []) := by
  simp only [run_command, subprocess_run, hd, if_true, h, printedLines]
  by_cases hs : (env.run c).stdout = "" <;>
    simp [hs, List.filterMap_append, List.filterMap]

theorem printedLines_run_command_fail (env : Env) (c d : String)
    (hd : env.dirExists = true) (h : (env.run c).returncode ≠ 0) :
    printedLines (run_command env c d).2 =
      ["\n🔄 " ++ d, "Command: " ++ c, "❌ Error: " ++ pyErrStr c (env.run c).returncode] ++
        (if (env.run c).stdout ≠ "" then ["Stdout: " ++ (env.run c).stdout] else []) ++
        (if (env.run c).stderr ≠ "" then ["Stderr: " ++ (env.run c).stderr] else []) := by
  simp only [run_command, subprocess_run, hd, if_true, h, if_neg, printedLines]
  by_cases hs : (env.run c).stdout = "" <;> by_cases he : (env.run c).stderr = "" <;>
    simp [h, hs, he, List.filterMap_append, List.filterMap]

theorem actionsOf_run_command (env : Env) (c d : String) (hd : env.dirExists = true) :
    actionsOf (run_command env c d).2 = [Action.cmd c] := by
  by_cases h : (env.run c).returncode = 0 <;>
    by_cases hs : (env.run c).stdout = "" <;> by_cases he : (env.run c).stderr = "" <;>
      simp [run_command, subprocess_run, hd, h, hs, he, actionsOf,
        List.filterMap_append, List.filterMap]

theorem spawnedCmds_run_command (env : Env) (c d : String) (hd : env.dirExists = true) :
    spawnedCmds (run_command env c d).2 = [c] := by
  by_cases h : (env.run c).returncode = 0 <;>
    by_cases hs : (env.run c).stdout = "" <;> by_cases he : (env.run c).stderr = "" <;>
      simp [run_command, subprocess_run, hd, h, hs, he, spawnedCmds,
        List.filterMap_append, List.filterMap]

theorem spawnedCwds_run_command (env : Env) (c d : String) :
    spawnedCwds (run_command env c d).2 =
      if env.dirExists = true then [loyaltyDir] else [] := by
  by_cases hd : env.dirExists <;>
    by_cases h : (env.run c).returncode = 0 <;>
      by_cases hs : (env.run c).stdout = "" <;> by_cases he : (env.run c).stderr = "" <;>
        simp [run_command, subprocess_run, hd, h, hs, he, spawnedCwds,
          List.filterMap_append, List.filterMap]

theorem runSteps_cons_ok (env : Env) (c d : String) (rest : List (String × String))
    (hd : env.dirExists = true) (h : (env.run c).returncode = 0) :
    runSteps env ((c, d) :: rest) =
      ((runSteps env rest).1, (run_command env c d).2 ++ (runSteps env rest).2) := by
  have hf : (run_command env c d).1 = Except.ok true := by
    simp [run_command_fst env c d hd, h]
  simp only [runSteps]
  rw [hf]

theorem runSteps_cons_fail (env : Env) (c d : String) (rest : List (String × String))
    (hd : env.dirExists = true) (h : (env.run c).returncode ≠ 0) :
    runSteps env ((c, d) :: rest) =
      (Except.ok false,
        (run_command env c d).2 ++ [Event.print ("❌ Failed to " ++ d.toLower)]) := by
  have hf : (run_command env c d).1 = Except.ok false := by
    simp [run_command_fst env c d hd, h]
  simp only [runSteps]
  rw [hf]

theorem main_of_chdir_fail (env : Env) (hd : env.dirExists = false) :
    main env =
      (MainResult.raised (PyExn.osError ("No such file or directory: " ++ loyaltyDir)),
        bannerEvents) := by
  simp [main, os_chdir, hd]

theorem main_of_steps_fail (env : Env) (hd : env.dirExists = true)
    (h : (runSteps env commands).1 = Except.ok false) :
    main env =
      (MainResult.exited 1,
        bannerEvents ++ [Event.chdir loyaltyDir] ++ (runSteps env commands).2) := by
  simp only [main, os_chdir, hd, if_true]
  rw [h]

theorem main_of_steps_ok (env : Env) (hd : env.dirExists = true)
    (h : (runSteps env commands).1 = Except.ok true) :
    main env =
      (MainResult.exited 0,
        bannerEvents ++ [Event.chdir loyaltyDir] ++ (runSteps env commands).2 ++
          waitEvents ++ statusHdr ++ (run_command env psCmd psDesc).2 ++
          logsHdr ++ (run_command env logsCmd logsDesc).2 ++ doneEvents) := by
  have h5 := run_command_fst env psCmd psDesc hd
  have h6 := run_command_fst env logsCmd logsDesc hd
  simp only [main, os_chdir, hd, if_true]
  rw [h, h5, h6]

theorem actionsOf_append (l₁ l₂ : List Event) :
    actionsOf (l₁ ++ l₂) = actionsOf l₁ ++ actionsOf l₂ :=
  List.filterMap_append l₁ l₂ _

theorem spawnedCmds_append (l₁ l₂ : List Event) :
    spawnedCmds (l₁ ++ l₂) = spawnedCmds l₁ ++ spawnedCmds l₂ :=
  List.filterMap_append l₁ l₂ _

theorem spawnedCwds_append (l₁ l₂ : List Event) :
    spawnedCwds (l₁ ++ l₂) = spawnedCwds l₁ ++ spawnedCwds l₂ :=
  List.filterMap_append l₁ l₂ _

theorem actionsOf_nil : actionsOf [] = [] := rfl

theorem actionsOf_print (s : String) (l : List Event) :
    actionsOf (Event.print s :: l) = actionsOf l := rfl

theorem actionsOf_chdir (p : String) (l : List Event) :
    actionsOf (Event.chdir p :: l) = actionsOf l := rfl

theorem actionsOf_spawn (c w : String) (l : List Event) :
    actionsOf (Event.spawn c w :: l) = Action.cmd c :: actionsOf l := rfl

theorem actionsOf_sleep (n : Nat) (l : List Event) :
    actionsOf (Event.sleep n :: l) = Action.wait n :: actionsOf l := rfl

theorem spawnedCmds_nil : spawnedCmds [] = [] := rfl

theorem spawnedCmds_print (s : String) (l : List Event) :
    spawnedCmds (Event.print s :: l) = spawnedCmds l := rfl

theorem spawnedCmds_chdir (p : String) (l : List Event) :
    spawnedCmds (Event.chdir p :: l) = spawnedCmds l := rfl

theorem spawnedCmds_spawn (c w : String) (l : List Event) :
    spawnedCmds (Event.spawn c w :: l) = c :: spawnedCmds l := rfl

theorem spawnedCmds_sleep (n : Nat) (l : List Event) :
    spawnedCmds (Event.sleep n :: l) = spawnedCmds l := rfl

theorem spawnedCwds_nil : spawnedCwds [] = [] := rfl

theorem spawnedCwds_print (s : String) (l : List Event) :
    spawnedCwds (Event.print s :: l) = spawnedCwds l := rfl

theorem spawnedCwds_chdir (p : String) (l : List Event) :
    spawnedCwds (Event.chdir p :: l) = spawnedCwds l := rfl

theorem spawnedCwds_spawn (c w : String) (l : List Event) :
    spawnedCwds (Event.spawn c w :: l) = w :: spawnedCwds l := rfl

theorem spawnedCwds_sleep (n : Nat) (l : List Event) :
    spawnedCwds (Event.sleep n :: l) = spawnedCwds l := rfl

theorem runSteps_all_ok (env : Env) (hd : env.dirExists = true)
    (h0 : (env.run cmdStop).returncode = 0) (h1 : (env.run cmdRm).returncode = 0)
    (h2 : (env.run cmdBuild).returncode = 0) (h3 : (env.run cmdUp).returncode = 0) :
    runSteps env commands =
      (Except.ok true,
        (run_command env cmdStop descStop).2 ++ ((run_command env cmdRm descRm).2 ++
          ((run_command env cmdBuild descBuild).2 ++
            ((run_command env cmdUp descUp).2 ++ [])))) := by
  rw [show commands =
    (cmdStop, descStop) :: (cmdRm, descRm) :: (cmdBuild, descBuild) ::
      (cmdUp, descUp) :: [] from rfl]
  rw [runSteps_cons_ok env _ _ _ hd h0, runSteps_cons_ok env _ _ _ hd h1,
      runSteps_cons_ok env _ _ _ hd h2, runSteps_cons_ok env _ _ _ hd h3]
  simp [runSteps]

theorem main_of_steps_error (env : Env) (hd : env.dirExists = true) (e : PyExn)
    (h : (runSteps env commands).1 = Except.error e) :
    main env =
      (MainResult.raised e,
        bannerEvents ++ [Event.chdir loyaltyDir] ++ (runSteps env commands).2) := by
  simp only [main, os_chdir, hd, if_true]
  rw [h]

theorem data_append (a b : String) : (a ++ b).data = a.data ++ b.data := rfl

theorem head_of_append (a s : String) (c : Char) (h : a.data.head? = some c) :
    ((a ++ s).data).head? = some c := by
  rw [data_append]
  cases hl : a.data with
  | nil => rw [hl] at h; cases h
  | cons x xs =>
      rw [hl] at h
      simp only [List.head?_cons, Option.some.injEq] at h
      subst h
      rfl

theorem append_ne_append_of_head_ne (a b s t : String) (c₁ c₂ : Char)
    (h₁ : a.data.head? = some c₁) (h₂ : b.data.head? = some c₂) (hne : c₁ ≠ c₂) :
    a ++ s ≠ b ++ t := by
  intro he
  have e1 := head_of_append a s c₁ h₁
  rw [he, head_of_append b t c₂ h₂] at e1
  exact hne (Option.some.inj e1).symm

theorem spawnedCwds_runSteps (env : Env) (l : List (String × String)) :
    ∀ w ∈ spawnedCwds (runSteps env l).2, w = loyaltyDir := by
  induction l with
  | nil => intro w hw; simp [runSteps, spawnedCwds] at hw
  | cons p rest ih =>
      obtain ⟨c, d⟩ := p
      intro w hw
      simp only [runSteps] at hw
      rcases hr : (run_command env c d).1 with e | b
      · simp only [hr] at hw
        rw [spawnedCwds_run_command] at hw
        split at hw
        · simpa using hw
        · simp at hw
      · cases b
        · simp only [hr] at hw
          rw [spawnedCwds_append] at hw
          rcases List.mem_append.1 hw with h1 | h2
          · rw [spawnedCwds_run_command] at h1
            split at h1
            · simpa using h1
            · simp at h1
          · simp [spawnedCwds] at h2
        · simp only [hr] at hw
          rw [spawnedCwds_append] at hw
          rcases List.mem_append.1 hw with h1 | h2
          · rw [spawnedCwds_run_command] at h1
            split at h1
            · simpa using h1
            · simp at h1
          · exact ih w h2

/-- A world where the stop command fails with exit status 1 and every other
command succeeds with empty output. -/
def stopFailEnv : Env :=
  { dirExists := true,
    run := fun c =>
      if c = cmdStop then { returncode := 1, stdout := "", stderr := "boom" }
      else { returncode := 0, stdout := "", stderr := "" } }

/-- A world where every command succeeds with empty stdout but non-empty
stderr. -/
def stderrEnv : Env :=
  { dirExists := true,
    run := fun _ => { returncode := 0, stdout := "", stderr := "warning" } }

/-! ## Claim theorems -/

/-- C1: if mandatory step k returns a non-zero exit status (and the earlier
mandatory steps succeeded), the program invokes exactly the mandatory
commands up to and including step k — so no later mandatory step, no sleep
and no best-effort step — prints the failure message naming the lower-cased
description of step k, and terminates with exit status 1. -/
theorem mandatory_step_failure_halts (env : Env) (hd : env.dirExists = true) (k : Fin 4)
    (hok : ∀ i : Fin 4, i < k → (env.run (stepOf i).1).returncode = 0)
    (hfail : (env.run (stepOf k).1).returncode ≠ 0) :
    (main env).1 = MainResult.exited 1 ∧
    actionsOf (main env).2 = (commands.take (k.1 + 1)).map (fun p => Action.cmd p.1) ∧
    Event.print ("❌ Failed to " ++ (stepOf k).2.toLower) ∈ (main env).2 := by
  have hcl : commands =
      (cmdStop, descStop) :: (cmdRm, descRm) :: (cmdBuild, descBuild) ::
        (cmdUp, descUp) :: [] := rfl
  fin_cases k
  · have hf : (env.run cmdStop).returncode ≠ 0 := hfail
    have hs : runSteps env commands =
        (Except.ok false,
          (run_command env cmdStop descStop).2 ++
            [Event.print ("❌ Failed to " ++ descStop.toLower)]) := by
      rw [hcl, runSteps_cons_fail env _ _ _ hd hf]
    have hm := main_of_steps_fail env hd (by rw [hs])
    refine ⟨by rw [hm], ?_, ?_⟩
    · show actionsOf (main env).2 = [Action.cmd cmdStop]
      rw [hm, hs]
      simp only [bannerEvents, actionsOf_append, actionsOf_nil, actionsOf_print,
        actionsOf_chdir, List.append_nil, List.nil_append, List.singleton_append,
        actionsOf_run_command env _ _ hd]
    · show Event.print ("❌ Failed to " ++ descStop.toLower) ∈ (main env).2
      rw [hm, hs]
      simp
  · have h0 : (env.run cmdStop).returncode = 0 := hok 0 (by decide)
    have hf : (env.run cmdRm).returncode ≠ 0 := hfail
    have hs : runSteps env commands =
        (Except.ok false,
          (run_command env cmdStop descStop).2 ++
            ((run_command env cmdRm descRm).2 ++
              [Event.print ("❌ Failed to " ++ descRm.toLower)])) := by
      rw [hcl, runSteps_cons_ok env _ _ _ hd h0, runSteps_cons_fail env _ _ _ hd hf]
    have hm := main_of_steps_fail env hd (by rw [hs])
    refine ⟨by rw [hm], ?_, ?_⟩
    · show actionsOf (main env).2 = [Action.cmd cmdStop, Action.cmd cmdRm]
      rw [hm, hs]
      simp only [bannerEvents, actionsOf_append, actionsOf_nil, actionsOf_print,
        actionsOf_chdir, List.append_nil, List.nil_append, List.singleton_append,
        actionsOf_run_command env _ _ hd]
    · show Event.print ("❌ Failed to " ++ descRm.toLower) ∈ (main env).2
      rw [hm, hs]
      simp
  · have h0 : (env.run cmdStop).returncode = 0 := hok 0 (by decide)
    have h1 : (env.run cmdRm).returncode = 0 := hok 1 (by decide)
    have hf : (env.run cmdBuild).returncode ≠ 0 := hfail
    have hs : runSteps env commands =
        (Except.ok false,
          (run_command env cmdStop descStop).2 ++
            ((run_command env cmdRm descRm).2 ++
              ((run_command env cmdBuild descBuild).2 ++
                [Event.print ("❌ Failed to " ++ descBuild.toLower)]))) := by
      rw [hcl, runSteps_cons_ok env _ _ _ hd h0, runSteps_cons_ok env _ _ _ hd h1,
        runSteps_cons_fail env _ _ _ hd hf]
    have hm := main_of_steps_fail env hd (by rw [hs])
    refine ⟨by rw [hm], ?_, ?_⟩
    · show actionsOf (main env).2 =
        [Action.cmd cmdStop, Action.cmd cmdRm, Action.cmd cmdBuild]
      rw [hm, hs]
      simp only [bannerEvents, actionsOf_append, actionsOf_nil, actionsOf_print,
        actionsOf_chdir, List.append_nil, List.nil_append, List.singleton_append,
        actionsOf_run_command env _ _ hd]
    · show Event.print ("❌ Failed to " ++ descBuild.toLower) ∈ (main env).2
      rw [hm, hs]
      simp
  · have h0 : (env.run cmdStop).returncode = 0 := hok 0 (by decide)
    have h1 : (env.run cmdRm).returncode = 0 := hok 1 (by decide)
    have h2 : (env.run cmdBuild).returncode = 0 := hok 2 (by decide)
    have hf : (env.run cmdUp).returncode ≠ 0 := hfail
    have hs : runSteps env commands =
        (Except.ok false,
          (run_command env cmdStop descStop).2 ++
            ((run_command env cmdRm descRm).2 ++
              ((run_command env cmdBuild descBuild).2 ++
                ((run_command env cmdUp descUp).2 ++
                  [Event.print ("❌ Failed to " ++ descUp.toLower)])))) := by
      rw [hcl, runSteps_cons_ok env _ _ _ hd h0, runSteps_cons_ok env _ _ _ hd h1,
        runSteps_cons_ok env _ _ _ hd h2, runSteps_cons_fail env _ _ _ hd hf]
    have hm := main_of_steps_fail env hd (by rw [hs])
    refine ⟨by rw [hm], ?_, ?_⟩
    · show actionsOf (main env).2 =
        [Action.cmd cmdStop, Action.cmd cmdRm, Action.cmd cmdBuild, Action.cmd cmdUp]
      rw [hm, hs]
      simp only [bannerEvents, actionsOf_append, actionsOf_nil, actionsOf_print,
        actionsOf_chdir, List.append_nil, List.nil_append, List.singleton_append,
        actionsOf_run_command env _ _ hd]
    · show Event.print ("❌ Failed to " ++ descUp.toLower) ∈ (main env).2
      rw [hm, hs]
      simp

/-- C2: if all four mandatory steps return exit status zero, the program
invokes the fixed delay exactly once (3 time units, no polling), then the
status step exactly once and the logs step exactly once, in that order, and
terminates with exit status 0 regardless of the outcomes of the status and
logs steps. -/
theorem all_mandatory_success_flow (env : Env) (hd : env.dirExists = true)
    (hok : ∀ i : Fin 4, (env.run (stepOf i).1).returncode = 0) :
    (main env).1 = MainResult.exited 0 ∧
    actionsOf (main env).2 =
      [Action.cmd cmdStop, Action.cmd cmdRm, Action.cmd cmdBuild, Action.cmd cmdUp,
       Action.wait 3, Action.cmd psCmd, Action.cmd logsCmd] := by
  have h0 : (env.run cmdStop).returncode = 0 := hok 0
  have h1 : (env.run cmdRm).returncode = 0 := hok 1
  have h2 : (env.run cmdBuild).returncode = 0 := hok 2
  have h3 : (env.run cmdUp).returncode = 0 := hok 3
  have hs := runSteps_all_ok env hd h0 h1 h2 h3
  have hm := main_of_steps_ok env hd (by rw [hs])
  refine ⟨by rw [hm], ?_⟩
  rw [hm, hs]
  simp only [bannerEvents, waitEvents, statusHdr, logsHdr, doneEvents,
    actionsOf_append, actionsOf_nil, actionsOf_print, actionsOf_chdir,
    actionsOf_sleep, List.append_nil, List.nil_append,
    actionsOf_run_command env _ _ hd]
  rfl

/-- C3: when all steps succeed, the six orchestration commands are issued in
exactly this order and with exactly these forms against the single target
service, and no other orchestration command is issued. -/
theorem success_command_sequence (env : Env) (hd : env.dirExists = true)
    (hok : ∀ c ∈ [cmdStop, cmdRm, cmdBuild, cmdUp, psCmd, logsCmd],
      (env.run c).returncode = 0) :
    spawnedCmds (main env).2 =
      ["docker-compose stop user-service", "docker-compose rm -f user-service",
       "docker-compose build user-service", "docker-compose up -d user-service",
       "docker-compose ps user-service", "docker-compose logs --tail=10 user-service"] := by
  have h0 : (env.run cmdStop).returncode = 0 := hok _ (by simp)
  have h1 : (env.run cmdRm).returncode = 0 := hok _ (by simp)
  have h2 : (env.run cmdBuild).returncode = 0 := hok _ (by simp)
  have h3 : (env.run cmdUp).returncode = 0 := hok _ (by simp)
  have hs := runSteps_all_ok env hd h0 h1 h2 h3
  have hm := main_of_steps_ok env hd (by rw [hs])
  rw [hm, hs]
  simp only [bannerEvents, waitEvents, statusHdr, logsHdr, doneEvents,
    spawnedCmds_append, spawnedCmds_nil, spawnedCmds_print, spawnedCmds_chdir,
    spawnedCmds_sleep, List.append_nil, List.nil_append,
    spawnedCmds_run_command env _ _ hd]
  rfl

theorem mandatory_step_failure_halts_witness :
    (main stopFailEnv).1 = MainResult.exited 1 ∧
    actionsOf (main stopFailEnv).2 =
      (commands.take ((0 : Fin 4).1 + 1)).map (fun p => Action.cmd p.1) ∧
    Event.print ("❌ Failed to " ++ (stepOf 0).2.toLower) ∈ (main stopFailEnv).2 :=
  mandatory_step_failure_halts stopFailEnv rfl 0 (by decide) (by decide)

theorem all_mandatory_success_flow_witness :
    (main allOkEnv).1 = MainResult.exited 0 ∧
    actionsOf (main allOkEnv).2 =
      [Action.cmd cmdStop, Action.cmd cmdRm, Action.cmd cmdBuild, Action.cmd cmdUp,
       Action.wait 3, Action.cmd psCmd, Action.cmd logsCmd] :=
  all_mandatory_success_flow allOkEnv rfl (by decide)

theorem success_command_sequence_witness :
    spawnedCmds (main allOkEnv).2 =
      ["docker-compose stop user-service", "docker-compose rm -f user-service",
       "docker-compose build user-service", "docker-compose up -d user-service",
       "docker-compose ps user-service", "docker-compose logs --tail=10 user-service"] :=
  success_command_sequence allOkEnv rfl (by decide)

/-- C4: run_command returns true exactly when the invoked process exits with
status code zero, and returns the single failure value false for every
non-zero outcome (non-zero return code, signal termination as a negative
status, missing binary as shell status 127), with no distinction between
failure categories. -/
theorem run_command_true_iff_exit_zero (env : Env) (c d : String)
    (hd : env.dirExists = true) :
    ((run_command env c d).1 = Except.ok true ↔ (env.run c).returncode = 0) ∧
    ((run_command env c d).1 = Except.ok false ↔ (env.run c).returncode ≠ 0) := by
  by_cases h : (env.run c).returncode = 0 <;>
    simp [run_command_fst env c d hd, h]

theorem run_command_true_iff_exit_zero_witness :
    ((run_command allOkEnv cmdStop descStop).1 = Except.ok true ↔
      (allOkEnv.run cmdStop).returncode = 0) ∧
    ((run_command allOkEnv cmdStop descStop).1 = Except.ok false ↔
      (allOkEnv.run cmdStop).returncode ≠ 0) :=
  run_command_true_iff_exit_zero allOkEnv cmdStop descStop rfl

/-- C5 counterexample: when the hard-coded working directory is missing, the
underlying invocation raises an OS error that the handler inside run_command
(which catches only CalledProcessError) does not catch, so an exception
escapes run_command instead of a boolean result. -/
theorem run_command_raise_counterexample :
    (run_command noDirEnv cmdStop descStop).1 =
      Except.error (PyExn.osError ("No such file or directory: " ++ loyaltyDir)) ∧
    (run_command noDirEnv cmdStop descStop).1 ≠ Except.ok true ∧
    (run_command noDirEnv cmdStop descStop).1 ≠ Except.ok false := by
  refine ⟨rfl, ?_, ?_⟩ <;> intro h <;>
    simp [run_command, subprocess_run, noDirEnv] at h

/-- C5 amended: provided the fixed working directory exists, run_command
never lets an exception escape: the outcome of the invoked process (any
exit status) is fully converted into the boolean return value. -/
theorem run_command_no_raise_of_dir (env : Env) (c d : String)
    (hd : env.dirExists = true) :
    ∃ b : Bool, (run_command env c d).1 = Except.ok b :=
  ⟨decide ((env.run c).returncode = 0), run_command_fst env c d hd⟩

theorem run_command_no_raise_of_dir_witness :
    ∃ b : Bool, (run_command allOkEnv cmdStop descStop).1 = Except.ok b :=
  run_command_no_raise_of_dir allOkEnv cmdStop descStop rfl

/-- C6: on success run_command echoes the captured standard output exactly
when it is non-empty (an empty-output successful step prints no Output
line); on failure it prints the error indicator with the error detail and
echoes captured standard output and standard error each exactly when
non-empty. -/
theorem run_command_print_policy (env : Env) (c d : String)
    (hd : env.dirExists = true) :
    ((env.run c).returncode = 0 →
      printedLines (run_command env c d).2 =
        ["\n🔄 " ++ d, "Command: " ++ c] ++
          (if (env.run c).stdout ≠ "" then ["Output: " ++ (env.run c).stdout] else [])) ∧
    ((env.run c).returncode ≠ 0 →
      printedLines (run_command env c d).2 =
        ["\n🔄 " ++ d, "Command: " ++ c,
         "❌ Error: " ++ pyErrStr c (env.run c).returncode] ++
          (if (env.run c).stdout ≠ "" then ["Stdout: " ++ (env.run c).stdout] else []) ++
          (if (env.run c).stderr ≠ "" then ["Stderr: " ++ (env.run c).stderr] else [])) :=
  ⟨printedLines_run_command_succ env c d hd, printedLines_run_command_fail env c d hd⟩

theorem run_command_print_policy_witness :
    ((allOkEnv.run cmdStop).returncode = 0 →
      printedLines (run_command allOkEnv cmdStop descStop).2 =
        ["\n🔄 " ++ descStop, "Command: " ++ cmdStop] ++
          (if (allOkEnv.run cmdStop).stdout ≠ ""
            then ["Output: " ++ (allOkEnv.run cmdStop).stdout] else [])) ∧
    ((allOkEnv.run cmdStop).returncode ≠ 0 →
      printedLines (run_command allOkEnv cmdStop descStop).2 =
        ["\n🔄 " ++ descStop, "Command: " ++ cmdStop,
         "❌ Error: " ++ pyErrStr cmdStop (allOkEnv.run cmdStop).returncode] ++
          (if (allOkEnv.run cmdStop).stdout ≠ ""
            then ["Stdout: " ++ (allOkEnv.run cmdStop).stdout] else []) ++
          (if (allOkEnv.run cmdStop).stderr ≠ ""
            then ["Stderr: " ++ (allOkEnv.run cmdStop).stderr] else [])) :=
  run_command_print_policy allOkEnv cmdStop descStop rfl

/-- C7 counterexample: the fixed mandatory command sequence has four steps,
not five. -/
theorem five_mandatory_steps_counterexample :
    commands.length = 4 ∧ ¬ commands.length = 5 := by decide

/-- C7 amended: the fixed command sequence consists of four mandatory steps
plus two informational best-effort steps, issued in this significant order
with the fixed delay between the two phases. -/
theorem fixed_sequence_four_plus_two (env : Env) (hd : env.dirExists = true)
    (hok : ∀ i : Fin 4, (env.run (stepOf i).1).returncode = 0) :
    commands.length = 4 ∧
    actionsOf (main env).2 =
      (commands.map fun p => Action.cmd p.1) ++
        [Action.wait 3, Action.cmd psCmd, Action.cmd logsCmd] := by
  have h0 : (env.run cmdStop).returncode = 0 := hok 0
  have h1 : (env.run cmdRm).returncode = 0 := hok 1
  have h2 : (env.run cmdBuild).returncode = 0 := hok 2
  have h3 : (env.run cmdUp).returncode = 0 := hok 3
  have hs := runSteps_all_ok env hd h0 h1 h2 h3
  have hm := main_of_steps_ok env hd (by rw [hs])
  refine ⟨rfl, ?_⟩
  rw [hm, hs]
  simp only [bannerEvents, waitEvents, statusHdr, logsHdr, doneEvents,
    actionsOf_append, actionsOf_nil, actionsOf_print, actionsOf_chdir,
    actionsOf_sleep, List.append_nil, List.nil_append,
    actionsOf_run_command env _ _ hd]
  rfl

theorem fixed_sequence_four_plus_two_witness :
    commands.length = 4 ∧
    actionsOf (main allOkEnv).2 =
      (commands.map fun p => Action.cmd p.1) ++
        [Action.wait 3, Action.cmd psCmd, Action.cmd logsCmd] :=
  fixed_sequence_four_plus_two allOkEnv rfl (by decide)

/-- C8: a successful step never prints the captured standard error, even
when it is non-empty: no printed line of the success branch is a Stderr
line. -/
theorem success_branch_discards_stderr (env : Env) (c d s : String)
    (hd : env.dirExists = true) (h : (env.run c).returncode = 0) :
    "Stderr: " ++ s ∉ printedLines (run_command env c d).2 := by
  intro hmem
  rw [printedLines_run_command_succ env c d hd h] at hmem
  rcases List.mem_append.1 hmem with h1 | h2
  · rcases List.mem_cons.1 h1 with he | h1b
    · exact append_ne_append_of_head_ne "Stderr: " "\n🔄 " s d 'S' '\n' rfl rfl
        (by decide) he
    · rcases List.mem_cons.1 h1b with he | h1c
      · exact append_ne_append_of_head_ne "Stderr: " "Command: " s c 'S' 'C' rfl rfl
          (by decide) he
      · exact absurd h1c (List.not_mem_nil _)
  · by_cases hs : (env.run c).stdout = ""
    · rw [if_neg (by simp [hs])] at h2
      exact absurd h2 (List.not_mem_nil _)
    · rw [if_pos hs] at h2
      rcases List.mem_cons.1 h2 with he | h2b
      · exact append_ne_append_of_head_ne "Stderr: " "Output: " s _ 'S' 'O' rfl rfl
          (by decide) he
      · exact absurd h2b (List.not_mem_nil _)

theorem success_branch_discards_stderr_witness :
    "Stderr: " ++ "warning" ∉ printedLines (run_command stderrEnv cmdStop descStop).2 :=
  success_branch_discards_stderr stderrEnv cmdStop descStop "warning" rfl rfl

/-- C9: the program changes its working directory to the hard-coded path
before issuing any orchestration command; if that directory does not exist
the program terminates with an uncaught exception without invoking any
command and without sleeping. -/
theorem chdir_before_commands (env : Env) :
    (env.dirExists = false →
      (main env).1 =
        MainResult.raised
          (PyExn.osError ("No such file or directory: " ++ loyaltyDir)) ∧
      actionsOf (main env).2 = []) ∧
    (env.dirExists = true →
      ∃ tl, (main env).2 =
        Event.print "🔄 Rebuilding and restarting user service..." ::
          Event.print "============================================" ::
            Event.chdir loyaltyDir :: tl) := by
  constructor
  · intro hd
    rw [main_of_chdir_fail env hd]
    exact ⟨rfl, rfl⟩
  · intro hd
    rcases hb : (runSteps env commands).1 with e | b
    · rw [main_of_steps_error env hd e hb]
      exact ⟨_, rfl⟩
    · cases b
      · rw [main_of_steps_fail env hd hb]
        exact ⟨_, rfl⟩
      · rw [main_of_steps_ok env hd hb]
        exact ⟨_, rfl⟩

theorem chdir_before_commands_witness :
    (main noDirEnv).1 =
      MainResult.raised
        (PyExn.osError ("No such file or directory: " ++ loyaltyDir)) ∧
    actionsOf (main noDirEnv).2 = [] :=
  (chdir_before_commands noDirEnv).1 rfl

/-- C10: every command invocation the program makes — the four mandatory
steps and the two best-effort steps alike — is executed with its working
directory set to the fixed path, an invariant over the whole run. -/
theorem spawn_cwd_invariant (env : Env) (w : String)
    (hw : w ∈ spawnedCwds (main env).2) : w = loyaltyDir := by
  cases hd : env.dirExists
  · rw [main_of_chdir_fail env hd] at hw
    simp [bannerEvents, spawnedCwds] at hw
  · rcases hb : (runSteps env commands).1 with e | b
    · rw [main_of_steps_error env hd e hb] at hw
      simp only [spawnedCwds_append, List.mem_append, bannerEvents,
        spawnedCwds_nil, spawnedCwds_print, spawnedCwds_chdir,
        List.not_mem_nil, false_or, or_false] at hw
      exact spawnedCwds_runSteps env commands w hw
    · cases b
      · rw [main_of_steps_fail env hd hb] at hw
        simp only [spawnedCwds_append, List.mem_append, bannerEvents,
          spawnedCwds_nil, spawnedCwds_print, spawnedCwds_chdir,
          List.not_mem_nil, false_or, or_false] at hw
        exact spawnedCwds_runSteps env commands w hw
      · rw [main_of_steps_ok env hd hb] at hw
        simp only [spawnedCwds_append, List.mem_append, bannerEvents, waitEvents,
          statusHdr, logsHdr, doneEvents, spawnedCwds_nil, spawnedCwds_print,
          spawnedCwds_chdir, spawnedCwds_sleep, List.not_mem_nil,
          false_or, or_false] at hw
        rcases hw with (h1 | h2) | h3
        · exact spawnedCwds_runSteps env commands w h1
        · rw [spawnedCwds_run_command, if_pos hd] at h2
          simpa using h2
        · rw [spawnedCwds_run_command, if_pos hd] at h3
          simpa using h3

theorem spawn_cwd_invariant_witness : loyaltyDir = loyaltyDir :=
  spawn_cwd_invariant allOkEnv loyaltyDir (by decide)

end RebuildScript
